import Mathlib

/-!
Verification of the dcdc (Docker Container Domain Connector) cache and
resolution logic, embedded from `src/dcdc/application.py`.

The embedding models:
* `CachedContainer` — the dataclass of the same name;
* `populateCache` / `buildList` / `processContainer` — the body of
  `Application.populate_cache`, with the for-loop over containers made an
  explicit recursion and Python exceptions (a failing
  `docker.containers.list()` call, a `KeyError` on a missing
  `com.docker.compose.container-number` label) made an `Except`;
* `compose_project_rule` — the DNS rule handler of the same name, with the
  mutable `self.container_cache` made explicit input/output state, the
  timestamps taken by `time.time()` made explicit parameters
  (`t1` for the first `populate_cache` call, `tnow` for line
  `now = time.time()`, `t2` for the second `populate_cache` call), and a
  counter of `populate_cache` invocations added so that rebuild-frequency
  properties can be stated.

Timestamps are rationals; Python's `int()` truncation toward zero is `pyInt`.
-/

namespace DCDC

/-- One value of `container.attrs["NetworkSettings"]["Networks"]`:
the code reads keys `IPAddress` and `GlobalIPv6Address` with default `""`,
so each is modelled as an optional string. -/
structure Network where
  ipAddress : Option String
  globalIPv6Address : Option String
deriving DecidableEq

/-- One container returned by `docker.containers.list()`: its id, its label
mapping `container.attrs["Config"]["Labels"]` (an association list looked up
by key, as the code uses `dict.get`), and the values of its `Networks`
mapping in iteration order. -/
structure Container where
  id : String
  labels : List (String × String)
  networks : List Network
deriving DecidableEq

/-- The `CachedContainer` dataclass. `container_ids` is the dict
ordinal ↦ container id; timestamps are rationals standing for
`time.time()` values. -/
structure CachedContainer where
  container_ids : List (String × String)
  container_name : String
  project_name : String
  ipv4_addresses : List String
  ipv6_addresses : List String
  last_updated : ℚ
deriving DecidableEq

/-- `self.container_cache`: a dict from query name to `CachedContainer`,
modelled as a partial map. -/
abbrev Cache := String → Option CachedContainer

/-- The empty dict `{}`. -/
def emptyCache : Cache := fun _ => none

/-- Exceptions that can escape `populate_cache`: a failure of the
`docker.containers.list()` snapshot call, or a Python `KeyError` from
`container_labels["com.docker.compose.container-number"]`. -/
inductive BuildError where
  | snapshotFailure
  | keyError (key : String)
deriving DecidableEq

/-- Result of the `docker.containers.list()` call: either the list of
running containers or a runtime failure. -/
inductive SnapshotResult where
  | ok (containers : List Container)
  | failure
deriving DecidableEq

def projectLabel : String := "com.docker.compose.project"

def serviceLabel : String := "com.docker.compose.service"

def ordinalLabel : String := "com.docker.compose.container-number"

/-- `dict.get(key)` on an association list: first binding wins
(Python dicts have unique keys, so this is faithful). -/
def lget : List (String × String) → String → Option String
  | [], _ => none
  | (k, v) :: rest, key => if k = key then some v else lget rest key

/-- Python's f-string rendering of a possibly-`None` value:
`f"{x}"` prints `None` as the four-character string. -/
def fstr : Option String → String
  | none => "None"
  | some s => s

/-- `d[k] = v` on a Python dict modelled as an association list:
overwrite in place if the key exists, else append. -/
def assocSet : List (String × String) → String → String → List (String × String)
  | [], k, v => [(k, v)]
  | (k1, v1) :: rest, k, v =>
      if k1 = k then (k, v) :: rest else (k1, v1) :: assocSet rest k v

/-- Python `int()` on a rational: truncation toward zero. -/
def pyInt (q : ℚ) : ℤ := if 0 ≤ q then ⌊q⌋ else -⌊-q⌋

/-- Body of the per-network loop in `populate_cache`: append the non-empty
`IPAddress` to `ipv4_addresses` and the non-empty `GlobalIPv6Address` to
`ipv6_addresses`. -/
def addNetwork (cc : CachedContainer) (network : Network) : CachedContainer :=
  let ipv4_address := network.ipAddress.getD ""
  let cc1 :=
    if ipv4_address = "" then cc
    else { cc with ipv4_addresses := cc.ipv4_addresses ++ [ipv4_address] }
  let ipv6_address := network.globalIPv6Address.getD ""
  if ipv6_address = "" then cc1
  else { cc1 with ipv6_addresses := cc1.ipv6_addresses ++ [ipv6_address] }

/-- The non-empty IPv4 addresses carried by a list of network attachments,
in iteration order: exactly the strings the per-network loop appends to
`ipv4_addresses`. -/
def networkIPv4s (networks : List Network) : List String :=
  networks.filterMap fun network =>
    let a := network.ipAddress.getD ""
    if a = "" then none else some a

/-- The non-empty IPv6 addresses carried by a list of network attachments. -/
def networkIPv6s (networks : List Network) : List String :=
  networks.filterMap fun network =>
    let a := network.globalIPv6Address.getD ""
    if a = "" then none else some a

/-- The value interpolated for the service label in the cache-key f-string:
`container_labels.get("com.docker.compose.service")` rendered by the
f-string, so an absent label becomes the string `"None"`. -/
def serviceName (c : Container) : String := fstr (lget c.labels serviceLabel)

/-- The composite cache key
`f"{container_name}.{project_name}.{ROOT_DOMAIN}"`. -/
def containerKey (root : String) (c : Container) (project_name : String) : String :=
  serviceName c ++ "." ++ project_name ++ "." ++ root

/-- The freshly created `CachedContainer` with empty address lists and
`last_updated = time.time()`. -/
def freshRecord (container_name project_name : String) (now : ℚ) : CachedContainer :=
  { container_ids := []
    container_name := container_name
    project_name := project_name
    ipv4_addresses := []
    ipv6_addresses := []
    last_updated := now }

/-- The per-container mutation of the found-or-created record: store the
ordinal ↦ container id binding and run the per-network loop. -/
def updateRecord (c : Container) (ordinal : String) (cc : CachedContainer) : CachedContainer :=
  c.networks.foldl addNetwork
    { cc with container_ids := assocSet cc.container_ids ordinal c.id }

/-- Body of the per-container loop in `populate_cache` acting on the cache
dict being built: skip containers without a project label, otherwise find or
create the record for the composite key, store the ordinal ↦ id binding
(raising `KeyError` if the ordinal label is absent) and append the network
addresses. -/
def processContainer (root : String) (now : ℚ) (cache : Cache) (c : Container) :
    Except BuildError Cache :=
  match lget c.labels projectLabel with
  | none => .ok cache
  | some project_name =>
    let cache_key := containerKey root c project_name
    let cached_container :=
      (cache cache_key).getD (freshRecord (serviceName c) project_name now)
    match lget c.labels ordinalLabel with
    | none => .error (.keyError ordinalLabel)
    | some ordinal =>
      .ok fun k =>
        if k = cache_key then some (updateRecord c ordinal cached_container) else cache k

/-- The for-loop of `populate_cache` over the container list, threading the
cache dict under construction; a raised exception aborts the whole loop. -/
def buildList (root : String) (now : ℚ) (cache : Cache) :
    List Container → Except BuildError Cache
  | [] => .ok cache
  | c :: rest =>
    match processContainer root now cache c with
    | .ok cache1 => buildList root now cache1 rest
    | .error e => .error e

/-- `Application.populate_cache`: list the running containers (which can
fail) and build a brand-new cache dict from the empty dict; only on success
does the result replace the live cache. -/
def populateCache (root : String) (now : ℚ) (snapshot : SnapshotResult) :
    Except BuildError Cache :=
  match snapshot with
  | .failure => .error .snapshotFailure
  | .ok containers => buildList root now emptyCache containers

/-- The record types the rule is registered for. -/
inductive RecordType where
  | A
  | AAAA
deriving DecidableEq

/-- An incoming query: `query.name` and `query.type`. -/
structure Query where
  name : String
  type : RecordType
deriving DecidableEq

/-- One `nserver.A`/`nserver.AAAA` answer: name, address and TTL. -/
structure Answer where
  name : String
  address : String
  ttl : ℤ
deriving DecidableEq

/-- An `nserver.Response` as used by the handler: just its answer list. -/
structure Response where
  answers : List Answer
deriving DecidableEq

/-- The answer-building tail of the handler: one `A` answer per
`ipv4_addresses` entry, or one `AAAA` answer per `ipv6_addresses` entry,
all carrying the same computed TTL. -/
def mkResponse (query : Query) (cc : CachedContainer) (ttl : ℤ) : Response :=
  match query.type with
  | .A => ⟨cc.ipv4_addresses.map fun ip => ⟨query.name, ip, ttl⟩⟩
  | .AAAA => ⟨cc.ipv6_addresses.map fun ip => ⟨query.name, ip, ttl⟩⟩

/-- Outcome of one handler invocation: the value returned to nserver
(`.ok (some r)` a response, `.ok none` the Python `None` sentinel,
`.error e` an uncaught exception), the live cache after the invocation, and
how many times `populate_cache` was invoked. -/
structure HandlerResult where
  response : Except BuildError (Option Response)
  cache : Cache
  rebuilds : Nat

/-- The DNS rule `compose_project_rule`. `container_cache` is the live cache
on entry; `t1` and `t2` are the `time.time()` values the first and second
`populate_cache` call would stamp records with, `tnow` the value read at
`now = time.time()` (so in a real execution `t1 ≤ tnow ≤ t2`). -/
def compose_project_rule (root : String) (container_cache : Cache) (query : Query)
    (snapshot : SnapshotResult) (t1 tnow t2 : ℚ) : HandlerResult :=
  let step1 : Except BuildError Cache × Nat :=
    if (container_cache query.name).isSome then (.ok container_cache, 0)
    else (populateCache root t1 snapshot, 1)
  match step1 with
  | (.error e, n) => ⟨.error e, container_cache, n⟩
  | (.ok cache1, n) =>
    match cache1 query.name with
    | none => ⟨.ok none, cache1, n⟩
    | some container =>
      if tnow - container.last_updated > 60 then
        match populateCache root t2 snapshot with
        | .error e => ⟨.error e, cache1, n + 1⟩
        | .ok cache2 =>
          match cache2 query.name with
          | none => ⟨.ok none, cache2, n + 1⟩
          | some container2 =>
            ⟨.ok (some (mkResponse query container2
                (60 - pyInt (tnow - container2.last_updated)))), cache2, n + 1⟩
      else
        ⟨.ok (some (mkResponse query container
            (60 - pyInt (tnow - container.last_updated)))), cache1, n⟩

/-- Extract the built cache from a successful `populate_cache` run
(used only to evaluate concrete builds in witnesses). -/
def cacheOf (r : Except BuildError Cache) : Cache :=
  match r with
  | .ok c => c
  | .error _ => emptyCache

/-- Fixture: a compose-managed container `web` of project `shop` with one
IPv4 address. -/
def webContainer : Container :=
  { id := "cid-web-1"
    labels := [(projectLabel, "shop"), (serviceLabel, "web"), (ordinalLabel, "1")]
    networks := [{ ipAddress := some "10.0.0.5", globalIPv6Address := none }] }

/-- Fixture: a second replica of the same service with a distinct IPv4
address. -/
def webContainer2 : Container :=
  { id := "cid-web-2"
    labels := [(projectLabel, "shop"), (serviceLabel, "web"), (ordinalLabel, "2")]
    networks := [{ ipAddress := some "10.0.0.9", globalIPv6Address := none }] }

/-- Fixture: a container whose only address is IPv6. -/
def v6Container : Container :=
  { id := "cid-api-1"
    labels := [(projectLabel, "shop"), (serviceLabel, "api"), (ordinalLabel, "1")]
    networks := [{ ipAddress := none, globalIPv6Address := some "fd00::1" }] }

/-- Fixture: a compose-managed container with no service label. -/
def noServiceContainer : Container :=
  { id := "cid-nosvc"
    labels := [(projectLabel, "shop"), (ordinalLabel, "1")]
    networks := [{ ipAddress := some "10.0.0.6", globalIPv6Address := none }] }

/-- Fixture: a compose-managed container whose service label is the empty
string. -/
def emptyServiceContainer : Container :=
  { id := "cid-emptysvc"
    labels := [(projectLabel, "shop"), (serviceLabel, ""), (ordinalLabel, "1")]
    networks := [{ ipAddress := some "10.0.0.7", globalIPv6Address := none }] }

/-- Fixture: a compose-managed container with no container-number label. -/
def noOrdinalContainer : Container :=
  { id := "cid-noord"
    labels := [(projectLabel, "shop"), (serviceLabel, "web")]
    networks := [] }

/-- Fixture: a container with no compose project label at all. -/
def unmanagedContainer : Container :=
  { id := "cid-unmanaged"
    labels := [("some.other.label", "x")]
    networks := [{ ipAddress := some "172.17.0.2", globalIPv6Address := none }] }

/-- Fixture: the record `populate_cache` builds for `webContainer` at
time 0. -/
def webRecord : CachedContainer :=
  { container_ids := [("1", "cid-web-1")]
    container_name := "web"
    project_name := "shop"
    ipv4_addresses := ["10.0.0.5"]
    ipv6_addresses := []
    last_updated := 0 }

/-- Fixture: a live cache holding `webRecord` under its composite key. -/
def webCache : Cache := fun k => if k = "web.shop.dcdc" then some webRecord else none

/-- Fixture: a record with only an IPv6 address. -/
def v6Record : CachedContainer :=
  { container_ids := [("1", "cid-api-1")]
    container_name := "api"
    project_name := "shop"
    ipv4_addresses := []
    ipv6_addresses := ["fd00::1"]
    last_updated := 0 }

/-- Fixture: a live cache holding `v6Record` under its composite key. -/
def v6Cache : Cache := fun k => if k = "api.shop.dcdc" then some v6Record else none

theorem networkIPv4s_cons (n : Network) (l : List Network) :
    networkIPv4s (n :: l) =
      (if n.ipAddress.getD "" = "" then [] else [n.ipAddress.getD ""]) ++ networkIPv4s l := by
  simp only [networkIPv4s, List.filterMap_cons]
  split_ifs with h <;> simp [h]

theorem networkIPv6s_cons (n : Network) (l : List Network) :
    networkIPv6s (n :: l) =
      (if n.globalIPv6Address.getD "" = "" then [] else [n.globalIPv6Address.getD ""]) ++
        networkIPv6s l := by
  simp only [networkIPv6s, List.filterMap_cons]
  split_ifs with h <;> simp [h]

theorem addNetwork_ipv4_addresses (cc : CachedContainer) (n : Network) :
    (addNetwork cc n).ipv4_addresses =
      cc.ipv4_addresses ++ (if n.ipAddress.getD "" = "" then [] else [n.ipAddress.getD ""]) := by
  simp only [addNetwork]
  split_ifs <;> simp

theorem addNetwork_ipv6_addresses (cc : CachedContainer) (n : Network) :
    (addNetwork cc n).ipv6_addresses =
      cc.ipv6_addresses ++
        (if n.globalIPv6Address.getD "" = "" then [] else [n.globalIPv6Address.getD ""]) := by
  simp only [addNetwork]
  split_ifs <;> simp

theorem addNetwork_last_updated (cc : CachedContainer) (n : Network) :
    (addNetwork cc n).last_updated = cc.last_updated := by
  simp only [addNetwork]
  split_ifs <;> simp

theorem foldl_addNetwork_ipv4_addresses (networks : List Network) (cc : CachedContainer) :
    (networks.foldl addNetwork cc).ipv4_addresses = cc.ipv4_addresses ++ networkIPv4s networks := by
  induction networks generalizing cc with
  | nil => simp [networkIPv4s]
  | cons n l ih => simp [ih, addNetwork_ipv4_addresses, networkIPv4s_cons]

theorem foldl_addNetwork_ipv6_addresses (networks : List Network) (cc : CachedContainer) :
    (networks.foldl addNetwork cc).ipv6_addresses = cc.ipv6_addresses ++ networkIPv6s networks := by
  induction networks generalizing cc with
  | nil => simp [networkIPv6s]
  | cons n l ih => simp [ih, addNetwork_ipv6_addresses, networkIPv6s_cons]

theorem foldl_addNetwork_last_updated (networks : List Network) (cc : CachedContainer) :
    (networks.foldl addNetwork cc).last_updated = cc.last_updated := by
  induction networks generalizing cc with
  | nil => rfl
  | cons n l ih => simp [ih, addNetwork_last_updated]

theorem updateRecord_ipv4_addresses (c : Container) (ordinal : String) (cc : CachedContainer) :
    (updateRecord c ordinal cc).ipv4_addresses =
      cc.ipv4_addresses ++ networkIPv4s c.networks := by
  simp [updateRecord, foldl_addNetwork_ipv4_addresses]

theorem updateRecord_ipv6_addresses (c : Container) (ordinal : String) (cc : CachedContainer) :
    (updateRecord c ordinal cc).ipv6_addresses =
      cc.ipv6_addresses ++ networkIPv6s c.networks := by
  simp [updateRecord, foldl_addNetwork_ipv6_addresses]

theorem updateRecord_last_updated (c : Container) (ordinal : String) (cc : CachedContainer) :
    (updateRecord c ordinal cc).last_updated = cc.last_updated := by
  simp [updateRecord, foldl_addNetwork_last_updated]

theorem processContainer_skip (root : String) (now : ℚ) (cache : Cache) (c : Container)
    (h : lget c.labels projectLabel = none) :
    processContainer root now cache c = .ok cache := by
  simp [processContainer, h]

theorem processContainer_no_ordinal (root : String) (now : ℚ) (cache : Cache) (c : Container)
    (project_name : String) (hp : lget c.labels projectLabel = some project_name)
    (ho : lget c.labels ordinalLabel = none) :
    processContainer root now cache c = .error (.keyError ordinalLabel) := by
  simp [processContainer, hp, ho]

theorem processContainer_step (root : String) (now : ℚ) (cache : Cache) (c : Container)
    (project_name ordinal : String)
    (hp : lget c.labels projectLabel = some project_name)
    (ho : lget c.labels ordinalLabel = some ordinal) :
    processContainer root now cache c = .ok fun k =>
      if k = containerKey root c project_name then
        some (updateRecord c ordinal
          ((cache (containerKey root c project_name)).getD
            (freshRecord (serviceName c) project_name now)))
      else cache k := by
  simp [processContainer, hp, ho]

theorem processContainer_mono {root : String} {now : ℚ} {cache : Cache} {c : Container}
    {cache2 : Cache} (h : processContainer root now cache c = .ok cache2)
    {k : String} {rec : CachedContainer} (hk : cache k = some rec) :
    ∃ rec2, cache2 k = some rec2 ∧ rec.ipv4_addresses ⊆ rec2.ipv4_addresses ∧
      rec.ipv6_addresses ⊆ rec2.ipv6_addresses ∧ rec2.last_updated = rec.last_updated := by
  cases hp : lget c.labels projectLabel with
  | none =>
      rw [processContainer_skip root now cache c hp] at h
      injection h with h2
      subst h2
      exact ⟨rec, hk, List.Subset.refl _, List.Subset.refl _, rfl⟩
  | some project_name =>
      cases ho : lget c.labels ordinalLabel with
      | none =>
          rw [processContainer_no_ordinal root now cache c project_name hp ho] at h
          cases h
      | some ordinal =>
          rw [processContainer_step root now cache c project_name ordinal hp ho] at h
          injection h with h2
          subst h2
          by_cases hkey : k = containerKey root c project_name
          · subst hkey
            rw [hk]
            refine ⟨updateRecord c ordinal rec, by simp, ?_, ?_, ?_⟩
            · rw [updateRecord_ipv4_addresses]
              exact List.subset_append_left _ _
            · rw [updateRecord_ipv6_addresses]
              exact List.subset_append_left _ _
            · rw [updateRecord_last_updated]
          · exact ⟨rec, by simp [hkey, hk], List.Subset.refl _, List.Subset.refl _, rfl⟩

theorem processContainer_adds {root : String} {now : ℚ} {cache : Cache} {c : Container}
    {cache2 : Cache} {project_name : String}
    (hp : lget c.labels projectLabel = some project_name)
    (h : processContainer root now cache c = .ok cache2) :
    ∃ rec, cache2 (containerKey root c project_name) = some rec ∧
      networkIPv4s c.networks ⊆ rec.ipv4_addresses ∧
      networkIPv6s c.networks ⊆ rec.ipv6_addresses := by
  cases ho : lget c.labels ordinalLabel with
  | none =>
      rw [processContainer_no_ordinal root now cache c project_name hp ho] at h
      cases h
  | some ordinal =>
      rw [processContainer_step root now cache c project_name ordinal hp ho] at h
      injection h with h2
      subst h2
      refine ⟨updateRecord c ordinal
        ((cache (containerKey root c project_name)).getD
          (freshRecord (serviceName c) project_name now)), by simp, ?_, ?_⟩
      · rw [updateRecord_ipv4_addresses]
        exact List.subset_append_right _ _
      · rw [updateRecord_ipv6_addresses]
        exact List.subset_append_right _ _

theorem buildList_cons_ok {root : String} {now : ℚ} {cache final : Cache} {c : Container}
    {rest : List Container} (h : buildList root now cache (c :: rest) = .ok final) :
    ∃ mid, processContainer root now cache c = .ok mid ∧
      buildList root now mid rest = .ok final := by
  cases hc : processContainer root now cache c with
  | ok mid =>
      refine ⟨mid, rfl, ?_⟩
      simpa [buildList, hc] using h
  | error e =>
      simp [buildList, hc] at h

theorem buildList_mono {root : String} {now : ℚ} (l : List Container) :
    ∀ {cache final : Cache}, buildList root now cache l = .ok final →
    ∀ {k : String} {rec : CachedContainer}, cache k = some rec →
    ∃ rec2, final k = some rec2 ∧ rec.ipv4_addresses ⊆ rec2.ipv4_addresses ∧
      rec.ipv6_addresses ⊆ rec2.ipv6_addresses ∧ rec2.last_updated = rec.last_updated := by
  induction l with
  | nil =>
      intro cache final h k rec hk
      injection h with h2
      subst h2
      exact ⟨rec, hk, List.Subset.refl _, List.Subset.refl _, rfl⟩
  | cons c rest ih =>
      intro cache final h k rec hk
      obtain ⟨mid, hc, hrest⟩ := buildList_cons_ok h
      obtain ⟨rec1, hk1, h41, h61, hu1⟩ := processContainer_mono hc hk
      obtain ⟨rec2, hk2, h42, h62, hu2⟩ := ih hrest hk1
      exact ⟨rec2, hk2, h41.trans h42, h61.trans h62, by rw [hu2, hu1]⟩

theorem buildList_mem {root : String} {now : ℚ} (l : List Container) :
    ∀ {cache final : Cache} {c : Container} {project_name : String}, c ∈ l →
    lget c.labels projectLabel = some project_name →
    buildList root now cache l = .ok final →
    ∃ rec, final (containerKey root c project_name) = some rec ∧
      networkIPv4s c.networks ⊆ rec.ipv4_addresses ∧
      networkIPv6s c.networks ⊆ rec.ipv6_addresses := by
  induction l with
  | nil =>
      intro cache final c project_name hmem
      cases hmem
  | cons a rest ih =>
      intro cache final c project_name hmem hp h
      obtain ⟨mid, ha, hrest⟩ := buildList_cons_ok h
      rcases List.mem_cons.mp hmem with rfl | hmem2
      · obtain ⟨rec, hk, h4, h6⟩ := processContainer_adds hp ha
        obtain ⟨rec2, hk2, h42, h62, _⟩ := buildList_mono rest hrest hk
        exact ⟨rec2, hk2, h4.trans h42, h6.trans h62⟩
      · exact ih hmem2 hp hrest

theorem processContainer_last_updated {root : String} {now : ℚ} {cache cache2 : Cache}
    {c : Container} (h : processContainer root now cache c = .ok cache2)
    (hinv : ∀ k rec, cache k = some rec → rec.last_updated = now) :
    ∀ k rec, cache2 k = some rec → rec.last_updated = now := by
  intro k rec hk
  cases hp : lget c.labels projectLabel with
  | none =>
      rw [processContainer_skip root now cache c hp] at h
      injection h with h2
      subst h2
      exact hinv k rec hk
  | some project_name =>
      cases ho : lget c.labels ordinalLabel with
      | none =>
          rw [processContainer_no_ordinal root now cache c project_name hp ho] at h
          cases h
      | some ordinal =>
          rw [processContainer_step root now cache c project_name ordinal hp ho] at h
          injection h with h2
          subst h2
          beta_reduce at hk
          split_ifs at hk with hkey
          · injection hk with hk2
            subst hk2
            rw [updateRecord_last_updated]
            cases hbase : cache (containerKey root c project_name) with
            | none => simp [hbase, freshRecord]
            | some base =>
                simp only [hbase, Option.getD_some]
                exact hinv _ base hbase
          · exact hinv k rec hk

theorem buildList_last_updated {root : String} {now : ℚ} (l : List Container) :
    ∀ {cache final : Cache}, buildList root now cache l = .ok final →
    (∀ k rec, cache k = some rec → rec.last_updated = now) →
    ∀ k rec, final k = some rec → rec.last_updated = now := by
  induction l with
  | nil =>
      intro cache final h hinv
      injection h with h2
      subst h2
      exact hinv
  | cons c rest ih =>
      intro cache final h hinv
      obtain ⟨mid, hc, hrest⟩ := buildList_cons_ok h
      exact ih hrest (processContainer_last_updated hc hinv)

theorem populateCache_last_updated {root : String} {now : ℚ} {snapshot : SnapshotResult}
    {cache : Cache} (h : populateCache root now snapshot = .ok cache) :
    ∀ k rec, cache k = some rec → rec.last_updated = now := by
  cases snapshot with
  | failure => cases h
  | ok containers =>
      exact buildList_last_updated containers h
        (fun k rec hk => by simp [emptyCache] at hk)

theorem buildList_append (root : String) (now : ℚ) (l1 l2 : List Container) (cache : Cache) :
    buildList root now cache (l1 ++ l2) =
      match buildList root now cache l1 with
      | .ok mid => buildList root now mid l2
      | .error e => .error e := by
  induction l1 generalizing cache with
  | nil => simp [buildList]
  | cons c rest ih =>
      cases hc : processContainer root now cache c with
      | ok mid => simp [buildList, hc, ih]
      | error e => simp [buildList, hc]

theorem handler_fresh {root : String} {cache : Cache} {query : Query}
    {snapshot : SnapshotResult} {t1 tnow t2 : ℚ} {cc : CachedContainer}
    (hpresent : cache query.name = some cc)
    (hfresh : ¬ tnow - cc.last_updated > 60) :
    compose_project_rule root cache query snapshot t1 tnow t2 =
      ⟨.ok (some (mkResponse query cc (60 - pyInt (tnow - cc.last_updated)))), cache, 0⟩ := by
  simp [compose_project_rule, hpresent, hfresh]

theorem handler_stale_ok {root : String} {cache : Cache} {query : Query}
    {snapshot : SnapshotResult} {t1 tnow t2 : ℚ} {cc : CachedContainer}
    (hpresent : cache query.name = some cc)
    (hstale : tnow - cc.last_updated > 60)
    {cache2 : Cache} (hpop : populateCache root t2 snapshot = .ok cache2) :
    compose_project_rule root cache query snapshot t1 tnow t2 =
      match cache2 query.name with
      | none => ⟨.ok none, cache2, 1⟩
      | some cc2 =>
          ⟨.ok (some (mkResponse query cc2 (60 - pyInt (tnow - cc2.last_updated)))), cache2, 1⟩ := by
  simp [compose_project_rule, hpresent, hstale, hpop]

theorem handler_stale_fail {root : String} {cache : Cache} {query : Query}
    {snapshot : SnapshotResult} {t1 tnow t2 : ℚ} {cc : CachedContainer} {e : BuildError}
    (hpresent : cache query.name = some cc)
    (hstale : tnow - cc.last_updated > 60)
    (hpop : populateCache root t2 snapshot = .error e) :
    compose_project_rule root cache query snapshot t1 tnow t2 = ⟨.error e, cache, 1⟩ := by
  simp [compose_project_rule, hpresent, hstale, hpop]

theorem handler_miss_ok {root : String} {cache : Cache} {query : Query}
    {snapshot : SnapshotResult} {t1 tnow t2 : ℚ} {cache1 : Cache}
    (habsent : cache query.name = none)
    (hpop : populateCache root t1 snapshot = .ok cache1) :
    compose_project_rule root cache query snapshot t1 tnow t2 =
      match cache1 query.name with
      | none => ⟨.ok none, cache1, 1⟩
      | some cc =>
          if tnow - cc.last_updated > 60 then
            match populateCache root t2 snapshot with
            | .error e => ⟨.error e, cache1, 2⟩
            | .ok cache2 =>
                match cache2 query.name with
                | none => ⟨.ok none, cache2, 2⟩
                | some cc2 =>
                    ⟨.ok (some (mkResponse query cc2 (60 - pyInt (tnow - cc2.last_updated)))),
                     cache2, 2⟩
          else
            ⟨.ok (some (mkResponse query cc (60 - pyInt (tnow - cc.last_updated)))), cache1, 1⟩ := by
  simp [compose_project_rule, habsent, hpop]

theorem handler_miss_fail {root : String} {cache : Cache} {query : Query}
    {snapshot : SnapshotResult} {t1 tnow t2 : ℚ} {e : BuildError}
    (habsent : cache query.name = none)
    (hpop : populateCache root t1 snapshot = .error e) :
    compose_project_rule root cache query snapshot t1 tnow t2 = ⟨.error e, cache, 1⟩ := by
  simp [compose_project_rule, habsent, hpop]

theorem handler_miss_then_absent {root : String} {cache : Cache} {query : Query}
    {snapshot : SnapshotResult} {t1 tnow t2 : ℚ} {cache1 : Cache}
    (habsent : cache query.name = none)
    (hpop : populateCache root t1 snapshot = .ok cache1)
    (hq1 : cache1 query.name = none) :
    compose_project_rule root cache query snapshot t1 tnow t2 = ⟨.ok none, cache1, 1⟩ := by
  simp [compose_project_rule, habsent, hpop, hq1]

theorem handler_miss_then_fresh {root : String} {cache : Cache} {query : Query}
    {snapshot : SnapshotResult} {t1 tnow t2 : ℚ} {cache1 : Cache} {cc : CachedContainer}
    (habsent : cache query.name = none)
    (hpop : populateCache root t1 snapshot = .ok cache1)
    (hq1 : cache1 query.name = some cc)
    (hfresh : ¬ tnow - cc.last_updated > 60) :
    compose_project_rule root cache query snapshot t1 tnow t2 =
      ⟨.ok (some (mkResponse query cc (60 - pyInt (tnow - cc.last_updated)))), cache1, 1⟩ := by
  simp [compose_project_rule, habsent, hpop, hq1, hfresh]

theorem handler_miss_then_stale_ok {root : String} {cache : Cache} {query : Query}
    {snapshot : SnapshotResult} {t1 tnow t2 : ℚ} {cache1 : Cache} {cc : CachedContainer}
    {cache2 : Cache}
    (habsent : cache query.name = none)
    (hpop : populateCache root t1 snapshot = .ok cache1)
    (hq1 : cache1 query.name = some cc)
    (hstale : tnow - cc.last_updated > 60)
    (hpop2 : populateCache root t2 snapshot = .ok cache2) :
    compose_project_rule root cache query snapshot t1 tnow t2 =
      match cache2 query.name with
      | none => ⟨.ok none, cache2, 2⟩
      | some cc2 =>
          ⟨.ok (some (mkResponse query cc2 (60 - pyInt (tnow - cc2.last_updated)))), cache2, 2⟩ := by
  simp [compose_project_rule, habsent, hpop, hq1, hstale, hpop2]

theorem handler_miss_then_stale_fail {root : String} {cache : Cache} {query : Query}
    {snapshot : SnapshotResult} {t1 tnow t2 : ℚ} {cache1 : Cache} {cc : CachedContainer}
    {e : BuildError}
    (habsent : cache query.name = none)
    (hpop : populateCache root t1 snapshot = .ok cache1)
    (hq1 : cache1 query.name = some cc)
    (hstale : tnow - cc.last_updated > 60)
    (hpop2 : populateCache root t2 snapshot = .error e) :
    compose_project_rule root cache query snapshot t1 tnow t2 = ⟨.error e, cache1, 2⟩ := by
  simp [compose_project_rule, habsent, hpop, hq1, hstale, hpop2]

theorem miss_triggers_rebuild {root : String} {cache : Cache} {query : Query}
    {snapshot : SnapshotResult} {t1 tnow t2 : ℚ}
    (habsent : cache query.name = none) :
    1 ≤ (compose_project_rule root cache query snapshot t1 tnow t2).rebuilds := by
  cases hpop : populateCache root t1 snapshot with
  | error e =>
      rw [handler_miss_fail habsent hpop]
  | ok cache1 =>
      cases hq1 : cache1 query.name with
      | none =>
          rw [handler_miss_then_absent habsent hpop hq1]
      | some cc =>
          by_cases hstale : tnow - cc.last_updated > 60
          · cases hpop2 : populateCache root t2 snapshot with
            | error e =>
                rw [handler_miss_then_stale_fail habsent hpop hq1 hstale hpop2]
                norm_num
            | ok cache2 =>
                rw [handler_miss_then_stale_ok habsent hpop hq1 hstale hpop2]
                cases cache2 query.name <;> norm_num
          · rw [handler_miss_then_fresh habsent hpop hq1 hstale]

/-- C1: for a query whose name is present in the live cache, if
`now - last_updated ≤ 60` the handler answers from the stored record with no
rebuild; if `now - last_updated > 60` it performs exactly one rebuild and
answers from the rebuilt cache — the new record when the name is still
present, the `None` sentinel when it has disappeared. -/
theorem c1_staleness_gate (root : String) (cache : Cache) (query : Query)
    (snapshot : SnapshotResult) (t1 tnow t2 : ℚ) (cc : CachedContainer) (cache2 : Cache)
    (hpresent : cache query.name = some cc) :
    (tnow - cc.last_updated ≤ 60 →
      (compose_project_rule root cache query snapshot t1 tnow t2).rebuilds = 0 ∧
      (compose_project_rule root cache query snapshot t1 tnow t2).response =
        .ok (some (mkResponse query cc (60 - pyInt (tnow - cc.last_updated))))) ∧
    (tnow - cc.last_updated > 60 → populateCache root t2 snapshot = .ok cache2 →
      (compose_project_rule root cache query snapshot t1 tnow t2).rebuilds = 1 ∧
      (compose_project_rule root cache query snapshot t1 tnow t2).response =
        (match cache2 query.name with
         | none => .ok none
         | some cc2 =>
             .ok (some (mkResponse query cc2 (60 - pyInt (tnow - cc2.last_updated)))))) := by
  constructor
  · intro hfresh
    rw [handler_fresh hpresent (not_lt.mpr hfresh)]
    exact ⟨rfl, rfl⟩
  · intro hstale hpop
    rw [handler_stale_ok hpresent hstale hpop]
    cases cache2 query.name <;> exact ⟨rfl, rfl⟩

/-- C2 (amended): the TTL is `60 - ⌊now - last_updated⌋` (Python `int()`
truncation agrees with the floor since the elapsed time is non-negative),
every answer of the response carries it, and it lies in the closed interval
`[0, 60]` — `60` itself is attained when less than one second has elapsed,
so the half-open interval `[0, 60)` claimed by the spec is off by one at the
right endpoint. -/
theorem c2_ttl_formula (root : String) (cache : Cache) (query : Query)
    (snapshot : SnapshotResult) (t1 tnow t2 : ℚ) (cc : CachedContainer)
    (hpresent : cache query.name = some cc)
    (h0 : 0 ≤ tnow - cc.last_updated) (h60 : tnow - cc.last_updated ≤ 60) :
    (compose_project_rule root cache query snapshot t1 tnow t2).response =
      .ok (some (mkResponse query cc (60 - ⌊tnow - cc.last_updated⌋))) ∧
    (∀ a ∈ (mkResponse query cc (60 - ⌊tnow - cc.last_updated⌋)).answers,
      a.ttl = 60 - ⌊tnow - cc.last_updated⌋) ∧
    0 ≤ 60 - ⌊tnow - cc.last_updated⌋ ∧ 60 - ⌊tnow - cc.last_updated⌋ ≤ 60 := by
  have hpy : pyInt (tnow - cc.last_updated) = ⌊tnow - cc.last_updated⌋ := if_pos h0
  have hfl0 : 0 ≤ ⌊tnow - cc.last_updated⌋ := Int.floor_nonneg.mpr h0
  have hfl60 : ⌊tnow - cc.last_updated⌋ ≤ 60 := by
    have h := Int.floor_le_floor h60
    rwa [show ⌊(60 : ℚ)⌋ = 60 by norm_num] at h
  refine ⟨?_, ?_, by omega, by omega⟩
  · rw [handler_fresh hpresent (not_lt.mpr h60), ← hpy]
  · intro a ha
    cases hqt : query.type <;>
    · simp only [mkResponse, hqt] at ha
      simp only [List.mem_map] at ha
      obtain ⟨ip, hip, rfl⟩ := ha
      rfl

/-- C2 counterexample: a record fresh at the very moment of the query
(elapsed time 0) is answered with TTL exactly 60, and 60 is not in the
half-open interval `[0, 60)`. -/
theorem c2_ttl_counterexample :
    (compose_project_rule "dcdc" webCache ⟨"web.shop.dcdc", .A⟩ (.ok [webContainer])
        0 0 0).response =
      .ok (some ⟨[⟨"web.shop.dcdc", "10.0.0.5", 60⟩]⟩) ∧
    ¬ ((60 : ℤ) < 60) := by
  refine ⟨?_, by decide⟩
  simp +decide [compose_project_rule, webCache, webRecord, mkResponse, pyInt]

/-- C3 (amended): one handler invocation executes `populate_cache` at most
twice — not at most once: the cache-miss rebuild and the staleness rebuild
can both fire in one invocation.  At most one rebuild runs provided no more
than the 60-second threshold elapses between the miss-rebuild timestamp and
the staleness check. -/
theorem c3_rebuild_bound (root : String) (cache : Cache) (query : Query)
    (snapshot : SnapshotResult) (t1 tnow t2 : ℚ) :
    (compose_project_rule root cache query snapshot t1 tnow t2).rebuilds ≤ 2 ∧
    (tnow - t1 ≤ 60 →
      (compose_project_rule root cache query snapshot t1 tnow t2).rebuilds ≤ 1) := by
  cases hq : cache query.name with
  | some cc =>
      by_cases hstale : tnow - cc.last_updated > 60
      · cases hpop : populateCache root t2 snapshot with
        | ok cache2 =>
            rw [handler_stale_ok hq hstale hpop]
            cases cache2 query.name <;> exact ⟨by norm_num, fun _ => by norm_num⟩
        | error e =>
            rw [handler_stale_fail hq hstale hpop]
            exact ⟨by norm_num, fun _ => by norm_num⟩
      · rw [handler_fresh hq hstale]
        exact ⟨by norm_num, fun _ => by norm_num⟩
  | none =>
      cases hpop : populateCache root t1 snapshot with
      | error e =>
          rw [handler_miss_fail hq hpop]
          exact ⟨by norm_num, fun _ => by norm_num⟩
      | ok cache1 =>
          cases hq1 : cache1 query.name with
          | none =>
              rw [handler_miss_then_absent hq hpop hq1]
              exact ⟨by norm_num, fun _ => by norm_num⟩
          | some cc1 =>
              have hlu : cc1.last_updated = t1 :=
                populateCache_last_updated hpop _ _ hq1
              by_cases hstale : tnow - cc1.last_updated > 60
              · rw [hlu] at hstale
                have hnever : ¬ tnow - t1 ≤ 60 := fun hm => absurd hstale (not_lt.mpr hm)
                cases hpop2 : populateCache root t2 snapshot with
                | error e =>
                    rw [handler_miss_then_stale_fail hq hpop hq1 (by rwa [hlu]) hpop2]
                    exact ⟨by norm_num, fun hm => absurd hm hnever⟩
                | ok cache2 =>
                    rw [handler_miss_then_stale_ok hq hpop hq1 (by rwa [hlu]) hpop2]
                    cases cache2 query.name <;>
                      exact ⟨by norm_num, fun hm => absurd hm hnever⟩
              · rw [handler_miss_then_fresh hq hpop hq1 hstale]
                exact ⟨by norm_num, fun _ => by norm_num⟩

/-- C3 counterexample: a cache miss whose rebuild yields a record that is
already past the staleness threshold at the later `now` sample makes the
same invocation rebuild a second time — two `populate_cache` executions,
refuting "at most once per invocation". -/
theorem c3_rebuild_counterexample :
    (compose_project_rule "dcdc" emptyCache ⟨"web.shop.dcdc", .A⟩ (.ok [webContainer])
        0 61 61).rebuilds = 2 ∧
    ¬ (2 ≤ 1) := by
  refine ⟨?_, by decide⟩
  simp +decide [compose_project_rule, populateCache, buildList, processContainer, containerKey,
    serviceName, freshRecord, updateRecord, addNetwork, assocSet, lget, fstr, projectLabel,
    serviceLabel, ordinalLabel, emptyCache, webContainer, mkResponse, pyInt]

/-- C4 (amended): when the container-runtime snapshot call fails, the live
cache mapping is left completely unchanged (the wholesale replacement only
happens on success), but the error is not swallowed: whenever a rebuild was
attempted in the invocation, the handler propagates the snapshot failure to
the DNS-serving layer instead of answering. -/
theorem c4_failure_atomicity (root : String) (cache : Cache) (query : Query)
    (t1 tnow t2 : ℚ) :
    (compose_project_rule root cache query .failure t1 tnow t2).cache = cache ∧
    ((compose_project_rule root cache query .failure t1 tnow t2).rebuilds ≠ 0 →
      (compose_project_rule root cache query .failure t1 tnow t2).response =
        .error .snapshotFailure) := by
  have hpop1 : populateCache root t1 .failure = .error .snapshotFailure := rfl
  have hpop2 : populateCache root t2 .failure = .error .snapshotFailure := rfl
  cases hq : cache query.name with
  | none =>
      rw [handler_miss_fail hq hpop1]
      exact ⟨rfl, fun _ => rfl⟩
  | some cc =>
      by_cases hstale : tnow - cc.last_updated > 60
      · rw [handler_stale_fail hq hstale hpop2]
        exact ⟨rfl, fun _ => rfl⟩
      · rw [handler_fresh hq hstale]
        exact ⟨rfl, fun h => absurd rfl h⟩

/-- C4 counterexample: with a failing snapshot source, the query does not
"still return its best-known answer or no answer" — the handler returns the
propagated error, which is distinct from both possible answers. -/
theorem c4_failure_counterexample :
    (compose_project_rule "dcdc" emptyCache ⟨"web.shop.dcdc", .A⟩ .failure 0 0 0).response =
      .error .snapshotFailure ∧
    (Except.error BuildError.snapshotFailure ≠
      (Except.ok none : Except BuildError (Option Response))) := by
  refine ⟨?_, by simp⟩
  simp +decide [compose_project_rule, populateCache, emptyCache]

/-- C5: for any two containers of one snapshot that carry the same project
label and render the same service name, a successful rebuild holds exactly
one record under the composite key, and that single record's
`ipv4_addresses` contains every non-empty IPv4 address of every network
attachment of both containers (likewise `ipv6_addresses` for IPv6). -/
theorem c5_merge_completeness (root : String) (t : ℚ) (containers : List Container)
    (c1 c2 : Container) (proj serv : String) (cache : Cache)
    (h1 : c1 ∈ containers) (h2 : c2 ∈ containers)
    (hp1 : lget c1.labels projectLabel = some proj)
    (hp2 : lget c2.labels projectLabel = some proj)
    (hs1 : serviceName c1 = serv) (hs2 : serviceName c2 = serv)
    (hok : populateCache root t (.ok containers) = .ok cache) :
    ∃ rec, cache (serv ++ "." ++ proj ++ "." ++ root) = some rec ∧
      networkIPv4s c1.networks ⊆ rec.ipv4_addresses ∧
      networkIPv4s c2.networks ⊆ rec.ipv4_addresses ∧
      networkIPv6s c1.networks ⊆ rec.ipv6_addresses ∧
      networkIPv6s c2.networks ⊆ rec.ipv6_addresses := by
  have hok2 : buildList root t emptyCache containers = .ok cache := hok
  obtain ⟨r1, hk1, h41, h61⟩ := buildList_mem containers h1 hp1 hok2
  obtain ⟨r2, hk2, h42, h62⟩ := buildList_mem containers h2 hp2 hok2
  rw [containerKey, hs1] at hk1
  rw [containerKey, hs2] at hk2
  rw [hk1] at hk2
  injection hk2 with hk3
  subst hk3
  exact ⟨r1, hk1, h41, h42, h61, h62⟩

/-- C6: a container whose label mapping lacks the project label contributes
nothing to a rebuild — the cache built from a snapshot containing it is
identical to the cache built from the snapshot without it, so no record and
no address of it can appear anywhere, in the cache or in any answer. -/
theorem c6_project_label_exclusion (root : String) (t : ℚ) (l1 l2 : List Container)
    (c : Container) (h : lget c.labels projectLabel = none) :
    populateCache root t (.ok (l1 ++ c :: l2)) = populateCache root t (.ok (l1 ++ l2)) := by
  show buildList root t emptyCache (l1 ++ c :: l2) = buildList root t emptyCache (l1 ++ l2)
  rw [buildList_append, buildList_append]
  cases buildList root t emptyCache l1 with
  | error e => rfl
  | ok mid => simp [buildList, processContainer_skip root t mid c h]

/-- C7: a resolved (present and fresh) record yields exactly one A answer
per `ipv4_addresses` entry and exactly one AAAA answer per `ipv6_addresses`
entry; in particular a record with no IPv4 address and some IPv6 address
yields zero A answers and at least one AAAA answer at the same timestamp. -/
theorem c7_record_type_isolation (root : String) (cache : Cache) (qname : String)
    (snapshot : SnapshotResult) (t1 tnow t2 : ℚ) (cc : CachedContainer)
    (hpresent : cache qname = some cc)
    (hfresh : tnow - cc.last_updated ≤ 60) :
    ∃ ra raaaa : Response,
      (compose_project_rule root cache ⟨qname, .A⟩ snapshot t1 tnow t2).response =
        .ok (some ra) ∧
      (compose_project_rule root cache ⟨qname, .AAAA⟩ snapshot t1 tnow t2).response =
        .ok (some raaaa) ∧
      ra.answers = cc.ipv4_addresses.map
        (fun ip => ⟨qname, ip, 60 - pyInt (tnow - cc.last_updated)⟩) ∧
      raaaa.answers = cc.ipv6_addresses.map
        (fun ip => ⟨qname, ip, 60 - pyInt (tnow - cc.last_updated)⟩) ∧
      ra.answers.length = cc.ipv4_addresses.length ∧
      raaaa.answers.length = cc.ipv6_addresses.length ∧
      (cc.ipv4_addresses = [] → cc.ipv6_addresses ≠ [] →
        ra.answers.length = 0 ∧ 1 ≤ raaaa.answers.length) := by
  have hf : ¬ tnow - cc.last_updated > 60 := not_lt.mpr hfresh
  have hA : (compose_project_rule root cache ⟨qname, .A⟩ snapshot t1 tnow t2).response =
      .ok (some (mkResponse ⟨qname, .A⟩ cc (60 - pyInt (tnow - cc.last_updated)))) := by
    rw [handler_fresh hpresent hf]
  have hAAAA :
      (compose_project_rule root cache ⟨qname, .AAAA⟩ snapshot t1 tnow t2).response =
      .ok (some (mkResponse ⟨qname, .AAAA⟩ cc (60 - pyInt (tnow - cc.last_updated)))) := by
    rw [handler_fresh hpresent hf]
  refine ⟨mkResponse ⟨qname, .A⟩ cc (60 - pyInt (tnow - cc.last_updated)),
    mkResponse ⟨qname, .AAAA⟩ cc (60 - pyInt (tnow - cc.last_updated)),
    hA, hAAAA, rfl, rfl, by simp [mkResponse], by simp [mkResponse], ?_⟩
  intro h4 h6
  constructor
  · simp [mkResponse, h4]
  · simp only [mkResponse, List.length_map]
    exact List.length_pos.mpr h6

/-- C8 (amended): a container with a project label but no service label is
keyed under `"None.<project>.<root>"` — the f-string renders the absent
label as the string `"None"`, which is not the empty string — and its
processing succeeds; but a container whose container-number label is absent
raises a `KeyError` that aborts the entire build. -/
theorem c8_missing_labels (root : String) (t : ℚ) (cache : Cache) (c : Container)
    (project_name : String) (l2 : List Container)
    (hp : lget c.labels projectLabel = some project_name) :
    (lget c.labels serviceLabel = none →
      containerKey root c project_name = "None" ++ "." ++ project_name ++ "." ++ root) ∧
    (∀ ordinal, lget c.labels ordinalLabel = some ordinal →
      ∃ cache2, processContainer root t cache c = .ok cache2 ∧
        (cache2 (containerKey root c project_name)).isSome = true) ∧
    (lget c.labels ordinalLabel = none →
      populateCache root t (.ok (c :: l2)) = .error (.keyError ordinalLabel)) := by
  refine ⟨?_, ?_, ?_⟩
  · intro hs
    simp [containerKey, serviceName, fstr, hs]
  · intro ordinal ho
    rw [processContainer_step root t cache c project_name ordinal hp ho]
    exact ⟨_, rfl, by simp⟩
  · intro ho
    show buildList root t emptyCache (c :: l2) = .error (.keyError ordinalLabel)
    simp [buildList, processContainer_no_ordinal root t emptyCache c project_name hp ho]

/-- C8 counterexample: a missing service label yields the key
`"None.shop.dcdc"` and no entry under `".shop.dcdc"`, whereas an empty
service label yields an entry under `".shop.dcdc"` — the two cases produce
different cache keys; and a container lacking the container-number label
makes the whole build abort with a key error. -/
theorem c8_missing_labels_counterexample :
    cacheOf (populateCache "dcdc" 0 (.ok [noServiceContainer])) ".shop.dcdc" = none ∧
    (cacheOf (populateCache "dcdc" 0 (.ok [emptyServiceContainer])) ".shop.dcdc").isSome =
      true ∧
    (cacheOf (populateCache "dcdc" 0 (.ok [noServiceContainer])) "None.shop.dcdc").isSome =
      true ∧
    populateCache "dcdc" 0 (.ok [noOrdinalContainer]) = .error (.keyError ordinalLabel) := by
  refine ⟨?_, ?_, ?_, ?_⟩ <;>
    simp +decide [populateCache, buildList, processContainer, containerKey, serviceName,
      freshRecord, updateRecord, addNetwork, assocSet, lget, fstr, projectLabel, serviceLabel,
      ordinalLabel, emptyCache, cacheOf, noServiceContainer, emptyServiceContainer,
      noOrdinalContainer]

/-- C9: a name absent from the live cache at the start of handling always
triggers a rebuild; when the rebuilt cache still lacks the name the handler
returns the `None` sentinel and leaves a cache that still lacks the name,
so a repeated query misses again and triggers its own rebuild — there is no
negative caching. -/
theorem c9_no_negative_caching (root : String) (cache : Cache) (query : Query)
    (snapshot : SnapshotResult) (t1 tnow t2 : ℚ)
    (habsent : cache query.name = none) :
    1 ≤ (compose_project_rule root cache query snapshot t1 tnow t2).rebuilds ∧
    (∀ cache1, populateCache root t1 snapshot = .ok cache1 → cache1 query.name = none →
      (compose_project_rule root cache query snapshot t1 tnow t2).rebuilds = 1 ∧
      (compose_project_rule root cache query snapshot t1 tnow t2).response = .ok none ∧
      (∀ snap2 s1 s2 s3,
        1 ≤ (compose_project_rule root
              (compose_project_rule root cache query snapshot t1 tnow t2).cache
              query snap2 s1 s2 s3).rebuilds)) := by
  constructor
  · exact miss_triggers_rebuild habsent
  · intro cache1 hpop habs1
    rw [handler_miss_then_absent habsent hpop habs1]
    exact ⟨rfl, rfl, fun snap2 s1 s2 s3 => miss_triggers_rebuild habs1⟩

/-- C10: a present, fresh record whose matching address list is empty makes
the handler return a response object with an empty answer list — a value
distinct from the `None` sentinel used for an unknown name, so the DNS
collaborator can tell "known service, no addresses of this family" from
"unknown name". -/
theorem c10_empty_answers_vs_absent (root : String) (cache : Cache) (query : Query)
    (snapshot : SnapshotResult) (t1 tnow t2 : ℚ) (cc : CachedContainer)
    (hpresent : cache query.name = some cc)
    (hfresh : tnow - cc.last_updated ≤ 60)
    (hempty : (match query.type with
               | .A => cc.ipv4_addresses
               | .AAAA => cc.ipv6_addresses) = []) :
    (compose_project_rule root cache query snapshot t1 tnow t2).response =
      .ok (some ⟨[]⟩) ∧
    (some (⟨[]⟩ : Response) ≠ (none : Option Response)) := by
  refine ⟨?_, by simp⟩
  rw [handler_fresh hpresent (not_lt.mpr hfresh)]
  show Except.ok (some (mkResponse query cc (60 - pyInt (tnow - cc.last_updated)))) =
    .ok (some ⟨[]⟩)
  cases hqt : query.type <;> rw [hqt] at hempty <;> simp at hempty <;>
    simp [mkResponse, hqt, hempty]

/-- Witness for C1: with a record stamped at time 0, a query at time 30
rebuilds nothing, and a query at time 61 rebuilds exactly once. -/
theorem c1_staleness_gate_witness :
    (compose_project_rule "dcdc" webCache ⟨"web.shop.dcdc", .A⟩ (.ok [webContainer])
      0 30 30).rebuilds = 0 ∧
    (compose_project_rule "dcdc" webCache ⟨"web.shop.dcdc", .A⟩ (.ok [webContainer])
      0 61 61).rebuilds = 1 := by
  constructor
  · exact ((c1_staleness_gate "dcdc" webCache ⟨"web.shop.dcdc", .A⟩ (.ok [webContainer])
      0 30 30 webRecord emptyCache (by simp [webCache])).1 (by norm_num [webRecord])).1
  · exact ((c1_staleness_gate "dcdc" webCache ⟨"web.shop.dcdc", .A⟩ (.ok [webContainer])
      0 61 61 webRecord (cacheOf (populateCache "dcdc" 61 (.ok [webContainer])))
      (by simp [webCache])).2 (by norm_num [webRecord]) rfl).1

/-- Witness for C2: a record stamped 10 seconds before the query is
answered with TTL `60 - ⌊10⌋ = 50`, inside `[0, 60]`. -/
theorem c2_ttl_formula_witness :
    (compose_project_rule "dcdc" webCache ⟨"web.shop.dcdc", .A⟩ (.ok [webContainer])
      0 10 10).response =
      .ok (some (mkResponse ⟨"web.shop.dcdc", .A⟩ webRecord
        (60 - ⌊(10:ℚ) - webRecord.last_updated⌋))) ∧
    0 ≤ 60 - ⌊(10:ℚ) - webRecord.last_updated⌋ ∧
    60 - ⌊(10:ℚ) - webRecord.last_updated⌋ ≤ 60 ∧
    60 - ⌊(10:ℚ) - webRecord.last_updated⌋ = 50 := by
  have h := c2_ttl_formula "dcdc" webCache ⟨"web.shop.dcdc", .A⟩ (.ok [webContainer])
    0 10 10 webRecord (by simp [webCache]) (by norm_num [webRecord]) (by norm_num [webRecord])
  exact ⟨h.1, h.2.2.1, h.2.2.2, by norm_num [webRecord]⟩

/-- Witness for C3: a cache miss at a fresh timestamp rebuilds at most once;
any invocation rebuilds at most twice. -/
theorem c3_rebuild_bound_witness :
    (compose_project_rule "dcdc" emptyCache ⟨"web.shop.dcdc", .A⟩ (.ok [webContainer])
      0 30 30).rebuilds ≤ 1 ∧
    (compose_project_rule "dcdc" emptyCache ⟨"web.shop.dcdc", .A⟩ (.ok [webContainer])
      0 61 61).rebuilds ≤ 2 := by
  exact ⟨(c3_rebuild_bound "dcdc" emptyCache ⟨"web.shop.dcdc", .A⟩ (.ok [webContainer])
      0 30 30).2 (by norm_num),
    (c3_rebuild_bound "dcdc" emptyCache ⟨"web.shop.dcdc", .A⟩ (.ok [webContainer])
      0 61 61).1⟩

/-- Witness for C4: on a stale hit with a failing snapshot source, the
pre-existing cache survives unchanged and the error is propagated. -/
theorem c4_failure_atomicity_witness :
    (compose_project_rule "dcdc" webCache ⟨"web.shop.dcdc", .A⟩ .failure 0 61 61).cache =
      webCache ∧
    (compose_project_rule "dcdc" webCache ⟨"web.shop.dcdc", .A⟩ .failure 0 61 61).response =
      .error .snapshotFailure := by
  have h := c4_failure_atomicity "dcdc" webCache ⟨"web.shop.dcdc", .A⟩ 0 61 61
  refine ⟨h.1, h.2 ?_⟩
  simp +decide [compose_project_rule, populateCache, webCache, webRecord]

/-- Witness for C5: two replicas of `web`/`shop` with addresses `10.0.0.5`
and `10.0.0.9` merge into the single record under `web.shop.dcdc`. -/
theorem c5_merge_completeness_witness :
    ∃ rec, cacheOf (populateCache "dcdc" 0 (.ok [webContainer, webContainer2]))
        "web.shop.dcdc" = some rec ∧
      networkIPv4s webContainer.networks ⊆ rec.ipv4_addresses ∧
      networkIPv4s webContainer2.networks ⊆ rec.ipv4_addresses ∧
      networkIPv6s webContainer.networks ⊆ rec.ipv6_addresses ∧
      networkIPv6s webContainer2.networks ⊆ rec.ipv6_addresses := by
  have h := c5_merge_completeness "dcdc" 0 [webContainer, webContainer2]
    webContainer webContainer2 "shop" "web"
    (cacheOf (populateCache "dcdc" 0 (.ok [webContainer, webContainer2])))
    (by simp) (by simp)
    (by simp +decide [lget, webContainer, projectLabel, serviceLabel, ordinalLabel])
    (by simp +decide [lget, webContainer2, projectLabel, serviceLabel, ordinalLabel])
    (by simp +decide [serviceName, fstr, lget, webContainer, projectLabel, serviceLabel])
    (by simp +decide [serviceName, fstr, lget, webContainer2, projectLabel, serviceLabel])
    rfl
  simpa using h

/-- Witness for C6: adding a container without a project label to a
snapshot leaves the rebuilt cache exactly unchanged. -/
theorem c6_project_label_exclusion_witness :
    populateCache "dcdc" 0 (.ok [webContainer, unmanagedContainer]) =
      populateCache "dcdc" 0 (.ok [webContainer]) := by
  have h := c6_project_label_exclusion "dcdc" 0 [webContainer] [] unmanagedContainer
    (by simp +decide [lget, unmanagedContainer, projectLabel])
  simpa using h

/-- Witness for C7: a record with no IPv4 address and one IPv6 address gives
zero A answers and one AAAA answer at the same timestamp. -/
theorem c7_record_type_isolation_witness :
    ∃ ra raaaa : Response,
      (compose_project_rule "dcdc" v6Cache ⟨"api.shop.dcdc", .A⟩ (.ok []) 0 10 10).response =
        .ok (some ra) ∧
      (compose_project_rule "dcdc" v6Cache ⟨"api.shop.dcdc", .AAAA⟩ (.ok [])
        0 10 10).response = .ok (some raaaa) ∧
      ra.answers.length = 0 ∧ 1 ≤ raaaa.answers.length := by
  obtain ⟨ra, raaaa, h1, h2, h3, h4, h5, h6, h7⟩ :=
    c7_record_type_isolation "dcdc" v6Cache "api.shop.dcdc" (.ok []) 0 10 10 v6Record
      (by simp [v6Cache]) (by norm_num [v6Record])
  obtain ⟨h8, h9⟩ := h7 (by simp [v6Record]) (by simp [v6Record])
  exact ⟨ra, raaaa, h1, h2, h8, h9⟩

/-- Witness for C8: the missing-service container is keyed with the literal
`"None"` prefix, and a build containing the missing-ordinal container
aborts with a key error. -/
theorem c8_missing_labels_witness :
    containerKey "dcdc" noServiceContainer "shop" =
      "None" ++ "." ++ "shop" ++ "." ++ "dcdc" ∧
    populateCache "dcdc" 0 (.ok [noOrdinalContainer]) = .error (.keyError ordinalLabel) := by
  have h := c8_missing_labels "dcdc" 0 emptyCache noServiceContainer "shop" []
    (by simp +decide [lget, noServiceContainer, projectLabel, serviceLabel, ordinalLabel])
  have h2 := c8_missing_labels "dcdc" 0 emptyCache noOrdinalContainer "shop" []
    (by simp +decide [lget, noOrdinalContainer, projectLabel, serviceLabel, ordinalLabel])
  exact ⟨h.1 (by simp +decide [lget, noServiceContainer, projectLabel, serviceLabel,
      ordinalLabel]),
    h2.2.2 (by simp +decide [lget, noOrdinalContainer, projectLabel, serviceLabel,
      ordinalLabel])⟩

/-- Witness for C9: a name contained in no snapshot rebuilds on the first
query, is answered with the sentinel, and the resulting cache still misses
it. -/
theorem c9_no_negative_caching_witness :
    (compose_project_rule "dcdc" emptyCache ⟨"ghost.shop.dcdc", .A⟩ (.ok [webContainer])
      0 0 0).rebuilds = 1 ∧
    (compose_project_rule "dcdc" emptyCache ⟨"ghost.shop.dcdc", .A⟩ (.ok [webContainer])
      0 0 0).response = .ok none := by
  have h := (c9_no_negative_caching "dcdc" emptyCache ⟨"ghost.shop.dcdc", .A⟩
      (.ok [webContainer]) 0 0 0 rfl).2
    (cacheOf (populateCache "dcdc" 0 (.ok [webContainer]))) rfl
    (by simp +decide [populateCache, buildList, processContainer, containerKey, serviceName,
      freshRecord, updateRecord, addNetwork, assocSet, lget, fstr, projectLabel, serviceLabel,
      ordinalLabel, emptyCache, cacheOf, webContainer])
  exact ⟨h.1, h.2.1⟩

/-- Witness for C10: an A query against the IPv6-only record returns a
response object with an empty answer list, not the sentinel. -/
theorem c10_empty_answers_vs_absent_witness :
    (compose_project_rule "dcdc" v6Cache ⟨"api.shop.dcdc", .A⟩ (.ok []) 0 10 10).response =
      .ok (some ⟨[]⟩) := by
  exact (c10_empty_answers_vs_absent "dcdc" v6Cache ⟨"api.shop.dcdc", .A⟩ (.ok []) 0 10 10
    v6Record (by simp [v6Cache]) (by norm_num [v6Record]) (by simp [v6Record])).1

end DCDC
